import Mathlib

/-!
cloudproc: point-cloud masking, filtering and library wrappers.

A shallow embedding of `src/cloudproc/cloudproc.cpp`.

* `std::vector` is a list of elements together with a capacity, so that
  `reserve` is visible in the model (allocation never fails).
* A `pcl::PointCloud` is its `points` vector with the `width` and `height`
  fields.  Sizes and indices are natural numbers (clouds and masks are taken
  to be within the range of `int`, as PCL itself indexes them).
* Coordinates live in an arbitrary linearly ordered type.
* Reading `points[i]` past the end of the vector has no defined result; the
  model returns `none` for a run that performs such a read.
* Objects of the wrapped libraries (PCL estimators, filters, file codecs) are
  records of the settings the code puts on them; the library routine that
  finally runs is a parameter of the model, and calls into the file codecs are
  recorded in a trace.
-/

namespace cloudproc

/-! ## Data model -/

/-- A `std::vector`: the stored elements and the allocated capacity. -/
structure StdVector (α : Type) where
  data : List α
  capacity : Nat
deriving Repr, DecidableEq

namespace StdVector

variable {α : Type}

/-- A default-constructed vector. -/
def empty : StdVector α := ⟨[], 0⟩

/-- The `size()` of the vector. -/
def size (v : StdVector α) : Nat := v.data.length

/-- The call `reserve(n)`: the capacity grows to at least `n`, the elements are untouched. -/
def reserve (v : StdVector α) (n : Nat) : StdVector α :=
  { v with capacity := max v.capacity n }

/-- The call `push_back(a)`: appends `a`; the capacity grows when it has to
(the model records the least capacity that holds the elements). -/
def push_back (v : StdVector α) (a : α) : StdVector α :=
  ⟨v.data ++ [a], max v.capacity (v.data.length + 1)⟩

/-- The read `v[i]`: defined only for `i < size()`. -/
def index (v : StdVector α) (i : Nat) : Option α := v.data[i]?

end StdVector

/-- A `pcl::PointCloud<PointT>`: the point vector and the two dimensions. -/
structure PointCloud (P : Type) where
  points : StdVector P
  width : Nat
  height : Nat
deriving Repr, DecidableEq

/-- A default-constructed cloud, `new pcl::PointCloud<PointT>()`. -/
def PointCloud.new {P : Type} : PointCloud P := ⟨StdVector.empty, 0, 0⟩

/-- The member `size()` of a cloud: the number of stored points. -/
def PointCloud.size {P : Type} (cloud : PointCloud P) : Nat := cloud.points.size

/-- A point type of the template instantiations: it has `x`, `y`, `z` coordinates. -/
class PointT (P : Type) (α : outParam Type) where
  x : P → α
  y : P → α
  z : P → α

/-- The point type `pcl::PointXYZ`. -/
structure PointXYZ (α : Type) where
  x : α
  y : α
  z : α
deriving Repr, DecidableEq

/-- The point type `pcl::PointXYZRGB`. -/
structure PointXYZRGB (α : Type) where
  x : α
  y : α
  z : α
  r : Nat
  g : Nat
  b : Nat
deriving Repr, DecidableEq

/-- The point type `pcl::PointNormal`. -/
structure PointNormal (α : Type) where
  x : α
  y : α
  z : α
  normal_x : α
  normal_y : α
  normal_z : α
  curvature : α
deriving Repr, DecidableEq

instance (α : Type) : PointT (PointXYZ α) α := ⟨PointXYZ.x, PointXYZ.y, PointXYZ.z⟩
instance (α : Type) : PointT (PointXYZRGB α) α := ⟨PointXYZRGB.x, PointXYZRGB.y, PointXYZRGB.z⟩
instance (α : Type) : PointT (PointNormal α) α := ⟨PointNormal.x, PointNormal.y, PointNormal.z⟩

/-- An `Eigen::Vector3f`. -/
structure Vector3 (α : Type) where
  x : α
  y : α
  z : α
deriving Repr, DecidableEq

/-! ## Size helpers -/

/-- The function `cloudSize`: `cloud.width * cloud.height`. -/
def cloudSize {P : Type} (cloud : PointCloud P) : Nat := cloud.width * cloud.height

/-- The function `setWidthToSize`: `width = points.size(); height = 1`. -/
def setWidthToSize {P : Type} (cloud : PointCloud P) : PointCloud P :=
  { cloud with width := cloud.points.size, height := 1 }

/-! ## Masking and filtering -/

/-- The test of `boxMask` on one point, with the conjuncts in source order. -/
def inBox {P α : Type} [LinearOrder α] [PointT P α] (mins maxes : Vector3 α) (pt : P) : Bool :=
  decide (PointT.x pt ≥ mins.x) && decide (PointT.x pt ≤ maxes.x) &&
  decide (PointT.y pt ≥ mins.y) && decide (PointT.y pt ≤ maxes.y) &&
  decide (PointT.z pt ≥ mins.z) && decide (PointT.z pt ≤ maxes.z)

/-- One pass of the loop body of `boxMask`: `out[i] = ...; ++i`. -/
def boxMaskStep {P α : Type} [LinearOrder α] [PointT P α] (mins maxes : Vector3 α)
    (st : List Bool × Nat) (pt : P) : List Bool × Nat :=
  (st.1.set st.2 (inBox mins maxes pt), st.2 + 1)

/-- The function `boxMask`.  `VectorXb out(in->size())` allocates `in->size()`
entries without initialising them; `junk` gives their indeterminate contents. -/
def boxMask {P α : Type} [LinearOrder α] [PointT P α] (junk : Nat → Bool)
    (inp : PointCloud P) (mins maxes : Vector3 α) : List Bool :=
  let i := 0
  let out := (List.range inp.size).map junk
  (inp.points.data.foldl (boxMaskStep mins maxes) (out, i)).1

/-- One pass of the loop body of `maskFilter`:
`if (mask[i]) out->points.push_back(in->points[i])`. -/
def maskFilterStep {P : Type} (inp : PointCloud P) (mask : List Bool)
    (out : PointCloud P) (i : Nat) : Option (PointCloud P) :=
  if mask.getD i false then
    (inp.points.index i).map (fun pt => { out with points := out.points.push_back pt })
  else
    some out

/-- The function `maskFilter`.  `maskSum` is `VectorXb::sum()` converted to `int`
(the type `VectorXb` is declared in the header); its value is only the argument
of `reserve`. -/
def maskFilter {P : Type} (maskSum : List Bool → Nat) (inp : PointCloud P)
    (mask : List Bool) : Option (PointCloud P) :=
  let n := maskSum mask
  let out : PointCloud P := PointCloud.new
  let out := { out with points := out.points.reserve n }
  ((List.range mask.length).foldlM (maskFilterStep inp mask) out).map setWidthToSize

/-- The points of `pts` at the indices `i` with `mask[i] == true`, in increasing `i`. -/
def selectedPoints {P : Type} (pts : List P) (mask : List Bool) : List P :=
  ((List.range mask.length).filter (fun i => mask.getD i false)).filterMap (fun i => pts[i]?)

/-! ## Wrapped library objects -/

/-- A `pcl::search::KdTree`: the cloud it has been given. -/
structure KdTree (Cloud : Type) where
  inputCloud : Option Cloud
deriving Repr, DecidableEq

/-- A freshly constructed tree, `new pcl::search::KdTree`. -/
def KdTree.new {Cloud : Type} : KdTree Cloud := ⟨none⟩

/-- The call `tree->setInputCloud(cloud)`. -/
def KdTree.setInputCloud {Cloud : Type} (tree : KdTree Cloud) (cloud : Cloud) : KdTree Cloud :=
  { tree with inputCloud := some cloud }

/-- The settings of a `pcl::VoxelGrid` that the code touches. -/
structure VoxelGrid (α Cloud : Type) where
  inputCloud : Option Cloud
  leafSize : Vector3 α
deriving Repr, DecidableEq

/-- The call `sor.setInputCloud(cloud)`. -/
def VoxelGrid.setInputCloud {α Cloud : Type} (sor : VoxelGrid α Cloud) (cloud : Cloud) :
    VoxelGrid α Cloud :=
  { sor with inputCloud := some cloud }

/-- The call `sor.setLeafSize(lx, ly, lz)`. -/
def VoxelGrid.setLeafSize {α Cloud : Type} (sor : VoxelGrid α Cloud) (lx ly lz : α) :
    VoxelGrid α Cloud :=
  { sor with leafSize := ⟨lx, ly, lz⟩ }

/-- The settings of a `pcl::MovingLeastSquares` that the code touches. -/
structure MovingLeastSquares (α Cloud : Type) where
  computeNormals : Bool
  inputCloud : Option Cloud
  polynomialFit : Bool
  searchMethod : Option (KdTree Cloud)
  searchRadius : α
deriving Repr, DecidableEq

namespace MovingLeastSquares

variable {α Cloud : Type}

/-- The call `mls.setComputeNormals(b)`. -/
def setComputeNormals (mls : MovingLeastSquares α Cloud) (b : Bool) : MovingLeastSquares α Cloud :=
  { mls with computeNormals := b }

/-- The call `mls.setInputCloud(cloud)`. -/
def setInputCloud (mls : MovingLeastSquares α Cloud) (cloud : Cloud) : MovingLeastSquares α Cloud :=
  { mls with inputCloud := some cloud }

/-- The call `mls.setPolynomialFit(b)`. -/
def setPolynomialFit (mls : MovingLeastSquares α Cloud) (b : Bool) : MovingLeastSquares α Cloud :=
  { mls with polynomialFit := b }

/-- The call `mls.setSearchMethod(tree)`. -/
def setSearchMethod (mls : MovingLeastSquares α Cloud) (tree : KdTree Cloud) :
    MovingLeastSquares α Cloud :=
  { mls with searchMethod := some tree }

/-- The call `mls.setSearchRadius(r)`. -/
def setSearchRadius (mls : MovingLeastSquares α Cloud) (r : α) : MovingLeastSquares α Cloud :=
  { mls with searchRadius := r }

end MovingLeastSquares

/-- The settings of a `pcl::GreedyProjectionTriangulation` that the code touches. -/
structure GreedyProjectionTriangulation (α Cloud : Type) where
  searchRadius : α
  mu : α
  maximumNearestNeighbors : Int
  maximumSurfaceAngle : α
  minimumAngle : α
  maximumAngle : α
  normalConsistency : Bool
  inputCloud : Option Cloud
  searchMethod : Option (KdTree Cloud)
deriving Repr, DecidableEq

namespace GreedyProjectionTriangulation

variable {α Cloud : Type}

/-- The call `gp3.setSearchRadius(r)`. -/
def setSearchRadius (gp3 : GreedyProjectionTriangulation α Cloud) (r : α) :
    GreedyProjectionTriangulation α Cloud :=
  { gp3 with searchRadius := r }

/-- The call `gp3.setMu(mu)`. -/
def setMu (gp3 : GreedyProjectionTriangulation α Cloud) (mu : α) :
    GreedyProjectionTriangulation α Cloud :=
  { gp3 with mu := mu }

/-- The call `gp3.setMaximumNearestNeighbors(nnn)`. -/
def setMaximumNearestNeighbors (gp3 : GreedyProjectionTriangulation α Cloud) (nnn : Int) :
    GreedyProjectionTriangulation α Cloud :=
  { gp3 with maximumNearestNeighbors := nnn }

/-- The call `gp3.setMaximumSurfaceAngle(a)`. -/
def setMaximumSurfaceAngle (gp3 : GreedyProjectionTriangulation α Cloud) (a : α) :
    GreedyProjectionTriangulation α Cloud :=
  { gp3 with maximumSurfaceAngle := a }

/-- The call `gp3.setMinimumAngle(a)`. -/
def setMinimumAngle (gp3 : GreedyProjectionTriangulation α Cloud) (a : α) :
    GreedyProjectionTriangulation α Cloud :=
  { gp3 with minimumAngle := a }

/-- The call `gp3.setMaximumAngle(a)`. -/
def setMaximumAngle (gp3 : GreedyProjectionTriangulation α Cloud) (a : α) :
    GreedyProjectionTriangulation α Cloud :=
  { gp3 with maximumAngle := a }

/-- The call `gp3.setNormalConsistency(b)`. -/
def setNormalConsistency (gp3 : GreedyProjectionTriangulation α Cloud) (b : Bool) :
    GreedyProjectionTriangulation α Cloud :=
  { gp3 with normalConsistency := b }

/-- The call `gp3.setInputCloud(cloud)`. -/
def setInputCloud (gp3 : GreedyProjectionTriangulation α Cloud) (cloud : Cloud) :
    GreedyProjectionTriangulation α Cloud :=
  { gp3 with inputCloud := some cloud }

/-- The call `gp3.setSearchMethod(tree)`. -/
def setSearchMethod (gp3 : GreedyProjectionTriangulation α Cloud) (tree : KdTree Cloud) :
    GreedyProjectionTriangulation α Cloud :=
  { gp3 with searchMethod := some tree }

end GreedyProjectionTriangulation

/-! ## Downsampling, normals and meshing -/

/-- The function `downsampleCloud`.  `sor` is the default-constructed
`pcl::VoxelGrid` and `filter` the library routine `sor.filter(*out)`, whose
outcome (a cloud, or a failure of the library) is the outcome of the call. -/
def downsampleCloud {α P ε : Type} (sor : VoxelGrid α (PointCloud P))
    (filter : VoxelGrid α (PointCloud P) → Except ε (PointCloud P))
    (inp : PointCloud P) (vsize : α) : Except ε (PointCloud P) :=
  let sor := sor.setInputCloud inp
  let sor := sor.setLeafSize vsize vsize vsize
  filter sor

/-- The estimator of `mlsAddNormals` as it stands when `mls.process` is called.
`mls` is the default-constructed `pcl::MovingLeastSquares`. -/
def mlsAddNormalsSetup {α Cloud : Type} [LinearOrderedField α]
    (mls : MovingLeastSquares α Cloud) (inp : Cloud) (_searchRadius : α) :
    MovingLeastSquares α Cloud :=
  let tree := (KdTree.new : KdTree Cloud).setInputCloud inp
  let mls := mls.setComputeNormals true
  let mls := mls.setInputCloud inp
  let mls := mls.setPolynomialFit true
  let mls := mls.setSearchMethod tree
  let mls := mls.setSearchRadius 0.04
  mls

/-- The function `mlsAddNormals`; `process` is the library routine `mls.process`. -/
def mlsAddNormals {α Cloud CloudN : Type} [LinearOrderedField α]
    (mls : MovingLeastSquares α Cloud) (process : MovingLeastSquares α Cloud → CloudN)
    (inp : Cloud) (searchRadius : α) : CloudN :=
  process (mlsAddNormalsSetup mls inp searchRadius)

/-- The triangulator of `meshGP3` as it stands when `gp3.reconstruct` is called.
`gp3` is the default-constructed object and `M_PI` the constant of `<cmath>`. -/
def meshGP3Setup {α Cloud : Type} [LinearOrderedField α] (M_PI : α)
    (gp3 : GreedyProjectionTriangulation α Cloud) (cloud_with_normals : Cloud)
    (mu : α) (maxnn : Int) (searchRadius : α) : GreedyProjectionTriangulation α Cloud :=
  let tree2 := (KdTree.new : KdTree Cloud).setInputCloud cloud_with_normals
  let gp3 := gp3.setSearchRadius searchRadius
  let gp3 := gp3.setMu mu
  let gp3 := gp3.setMaximumNearestNeighbors maxnn
  let gp3 := gp3.setMaximumSurfaceAngle (M_PI / 4)
  let gp3 := gp3.setMinimumAngle (M_PI / 18)
  let gp3 := gp3.setMaximumAngle (2 * M_PI / 3)
  let gp3 := gp3.setNormalConsistency false
  let gp3 := gp3.setInputCloud cloud_with_normals
  let gp3 := gp3.setSearchMethod tree2
  gp3

/-- The function `meshGP3`; `reconstruct` is the library routine `gp3.reconstruct`. -/
def meshGP3 {α Cloud Mesh : Type} [LinearOrderedField α] (M_PI : α)
    (gp3 : GreedyProjectionTriangulation α Cloud)
    (reconstruct : GreedyProjectionTriangulation α Cloud → Mesh)
    (cloud_with_normals : Cloud) (mu : α) (maxnn : Int) (searchRadius : α) : Mesh :=
  reconstruct (meshGP3Setup M_PI gp3 cloud_with_normals mu maxnn searchRadius)

/-- An angle given in degrees, in radians. -/
def degrees {α : Type} [LinearOrderedField α] (M_PI : α) (d : α) : α := d * (M_PI / 180)

/-! ## Reading and writing files -/

/-- A `std::runtime_error` with its message. -/
structure RuntimeError where
  what : String
deriving Repr, DecidableEq

/-- The expansion of `FILE_OPEN_ERROR(fname)`: the thrown `runtime_error`. -/
def FILE_OPEN_ERROR (fname : String) : RuntimeError := ⟨"couldn't open " ++ fname⟩

/-- A call into the file codecs of PCL, with its arguments. -/
inductive CodecCall (Cloud Mesh : Type) where
  | loadPCDFile (fname : String)
  | savePCDFileBinary (fname : String) (cloud : Cloud)
  | savePLYFile (fname : String) (cloud : Cloud) (binary : Bool)
  | savePLYFileMesh (fname : String) (mesh : Mesh)
  | saveOBJFile (fname : String) (mesh : Mesh)
  | saveVTKFile (fname : String) (mesh : Mesh)
deriving Repr, DecidableEq

/-- The function `readPCD`: the codec calls made, and the outcome.
`loadPCDFile` is the library reader (its return code and the blob it fills)
and `fromROSMsg` the library conversion of the blob to a cloud. -/
def readPCD {Blob Cloud Mesh : Type} (loadPCDFile : String → Int × Blob)
    (fromROSMsg : Blob → Cloud) (pcdfile : String) :
    List (CodecCall Cloud Mesh) × Except RuntimeError Cloud :=
  let r := loadPCDFile pcdfile
  if r.1 ≠ 0 then ([CodecCall.loadPCDFile pcdfile], Except.error (FILE_OPEN_ERROR pcdfile))
  else ([CodecCall.loadPCDFile pcdfile], Except.ok (fromROSMsg r.2))

/-- The function `saveCloud`: the codec calls made, and the outcome.
`extension` is `boost::filesystem::extension`. -/
def saveCloud {Cloud Mesh : Type} (extension : String → String) (cloud : Cloud)
    (fname : String) : List (CodecCall Cloud Mesh) × Except RuntimeError Unit :=
  let ext := extension fname
  if ext = ".pcd" then ([CodecCall.savePCDFileBinary fname cloud], Except.ok ())
  else if ext = ".ply" then ([CodecCall.savePLYFile fname cloud true], Except.ok ())
  else ([], Except.error ⟨fname ++ " has unrecognized extension"⟩)

/-- The function `saveMesh`: the codec calls made, and the outcome.
`extension` is `boost::filesystem::extension`; `PRINT_AND_THROW` (defined in a
header) maps the message to the exception it throws after printing it. -/
def saveMesh {Cloud Mesh ε : Type} (extension : String → String)
    (PRINT_AND_THROW : String → ε) (mesh : Mesh) (fname : String) :
    List (CodecCall Cloud Mesh) × Except ε Unit :=
  let ext := extension fname
  if ext = ".ply" then ([CodecCall.savePLYFileMesh fname mesh], Except.ok ())
  else if ext = ".obj" then ([CodecCall.saveOBJFile fname mesh], Except.ok ())
  else if ext = ".vtk" then ([CodecCall.saveVTKFile fname mesh], Except.ok ())
  else ([], Except.error (PRINT_AND_THROW ("filename " ++ fname ++ " had unrecognized extension")))

/-- The extension of a path as `boost::filesystem::extension` gives it: the
part of the last path component from its last dot on, empty when that
component has no dot or is `.` or `..`.  Used to instantiate `extension`. -/
def fsExtension (fname : String) : String :=
  let leaf := (fname.toList.reverse.takeWhile (fun c => c ≠ '/')).reverse
  if leaf = ['.'] ∨ leaf = ['.', '.'] then ""
  else if '.' ∈ leaf then String.mk ('.' :: (leaf.reverse.takeWhile (fun c => c ≠ '.')).reverse)
  else ""

/-! ## Example data -/

/-- The two points of the box scenario: `(0.5, 0.5, 0.5)` and `(2, 2, 2)`. -/
def unitBoxCloud : PointCloud (PointXYZ ℚ) :=
  ⟨⟨[⟨0.5, 0.5, 0.5⟩, ⟨2, 2, 2⟩], 2⟩, 2, 1⟩

/-- An organized cloud of two rows and two columns. -/
def organizedCloud : PointCloud (PointXYZ ℤ) :=
  ⟨⟨[⟨0, 0, 0⟩, ⟨1, 0, 0⟩, ⟨0, 1, 0⟩, ⟨1, 1, 0⟩], 4⟩, 2, 2⟩

/-- A voxel grid before any setter has been called. -/
def exampleVoxelGrid : VoxelGrid ℚ (PointCloud (PointXYZ ℚ)) := ⟨none, ⟨0, 0, 0⟩⟩

/-- A voxel filter that hands back its input cloud. -/
def passThroughFilter (sor : VoxelGrid ℚ (PointCloud (PointXYZ ℚ))) :
    Except RuntimeError (PointCloud (PointXYZ ℚ)) :=
  Except.ok (sor.inputCloud.getD PointCloud.new)

/-- A moving-least-squares estimator before any setter has been called. -/
def exampleMLS : MovingLeastSquares ℚ (PointCloud (PointXYZ ℚ)) := ⟨false, none, false, none, 0⟩

/-- A triangulator before any setter has been called. -/
def exampleGP3 : GreedyProjectionTriangulation ℚ (PointCloud (PointNormal ℚ)) :=
  ⟨0, 0, 0, 0, 0, 0, true, none, none⟩

/-- The point `(0.5, 0.5, 0.5)` alone, as an unorganized cloud. -/
def insideCloud : PointCloud (PointXYZ ℚ) := ⟨⟨[⟨0.5, 0.5, 0.5⟩], 1⟩, 1, 1⟩

/-- A reader that loads every file successfully, as the box scenario cloud. -/
def loadAlways (_fname : String) : Int × PointCloud (PointXYZ ℚ) := (0, unitBoxCloud)

/-- A reader that fails on every file. -/
def loadNever (_fname : String) : Int × PointCloud (PointXYZ ℚ) := (-1, PointCloud.new)

/-! ## Lemmas on the selected subsequence -/

section SelectedPoints

variable {P : Type}

theorem selectedPoints_nil_mask (pts : List P) : selectedPoints pts [] = [] := by
  simp [selectedPoints]

theorem selectedPoints_nil_pts (mask : List Bool) : selectedPoints ([] : List P) mask = [] := by
  simp [selectedPoints]

theorem selectedPoints_cons (p : P) (ps : List P) (m : Bool) (ms : List Bool) :
    selectedPoints (p :: ps) (m :: ms) = (if m then [p] else []) ++ selectedPoints ps ms := by
  unfold selectedPoints
  rw [List.length_cons, List.range_succ_eq_map, List.filter_cons]
  cases m <;>
    simp [List.filter_map, List.filterMap_map, Function.comp_def]

/-- Selection with the zipped formulation: the first components of the
pairs `(pts[i], mask[i])` whose second component is `true`. -/
theorem selectedPoints_eq_zip (pts : List P) (mask : List Bool) :
    selectedPoints pts mask = ((pts.zip mask).filter Prod.snd).map Prod.fst := by
  induction pts generalizing mask with
  | nil => simp [selectedPoints_nil_pts]
  | cons p ps ih =>
    cases mask with
    | nil => simp [selectedPoints_nil_mask]
    | cons m ms =>
      rw [selectedPoints_cons, ih]
      cases m <;> simp

theorem selectedPoints_sublist (pts : List P) (mask : List Bool) :
    List.Sublist (selectedPoints pts mask) pts := by
  induction pts generalizing mask with
  | nil => simp [selectedPoints_nil_pts]
  | cons p ps ih =>
    cases mask with
    | nil => simp [selectedPoints_nil_mask]
    | cons m ms =>
      rw [selectedPoints_cons]
      cases m
      · simpa using (ih ms).cons p
      · simpa using (ih ms)

theorem selectedPoints_length (pts : List P) (mask : List Bool)
    (h : mask.length ≤ pts.length) :
    (selectedPoints pts mask).length = mask.count true := by
  induction pts generalizing mask with
  | nil =>
    have : mask = [] := List.length_eq_zero.mp (Nat.le_zero.mp h)
    simp [this, selectedPoints_nil_mask]
  | cons p ps ih =>
    cases mask with
    | nil => simp [selectedPoints_nil_mask]
    | cons m ms =>
      have h' : ms.length ≤ ps.length := by simpa using h
      rw [selectedPoints_cons, List.length_append, ih ms h']
      cases m <;> simp [Nat.add_comm]

theorem selectedPoints_map (pts : List P) (f : P → Bool) :
    selectedPoints pts (pts.map f) = pts.filter f := by
  induction pts with
  | nil => simp [selectedPoints_nil_pts]
  | cons p ps ih =>
    rw [List.map_cons, selectedPoints_cons, ih, List.filter_cons]
    cases f p <;> simp

end SelectedPoints

/-! ## Lemmas on the loop of `maskFilter` -/

section MaskFilterLoop

variable {P : Type}

/-- The loop of `maskFilter` run over the indices below `k`, when no selected
index is past the end of the points: it appends the selected points. -/
theorem foldlM_maskFilterStep_some (inp : PointCloud P) (mask : List Bool)
    (out0 : PointCloud P) (k : Nat)
    (h : ∀ i, i < k → mask.getD i false = true → i < inp.points.data.length) :
    ∃ out, (List.range k).foldlM (maskFilterStep inp mask) out0 = some out ∧
      out.points.data = out0.points.data ++
        ((List.range k).filter (fun i => mask.getD i false)).filterMap
          (fun i => inp.points.data[i]?) ∧
      out.width = out0.width ∧ out.height = out0.height := by
  induction k with
  | zero => exact ⟨out0, by simp⟩
  | succ k ih =>
    obtain ⟨out, hrun, hdata, hw, hh⟩ := ih (fun i hi => h i (Nat.lt_succ_of_lt hi))
    rw [List.range_succ, List.foldlM_append, hrun]
    by_cases hm : mask.getD k false = true
    · have hk : k < inp.points.data.length := h k (Nat.lt_succ_self k) hm
      have hm' := hm
      rw [List.getD_eq_getElem?_getD] at hm'
      refine ⟨{ out with points := out.points.push_back (inp.points.data[k]) }, ?_, ?_, hw, hh⟩
      · simp [maskFilterStep, hm', StdVector.index, List.getElem?_eq_getElem hk]
      · simp [StdVector.push_back, hdata, List.filter_append, hm', List.filter_cons,
          List.getElem?_eq_getElem hk]
    · have hm' := hm
      rw [List.getD_eq_getElem?_getD] at hm'
      refine ⟨out, ?_, ?_, hw, hh⟩
      · simp [maskFilterStep, hm']
      · simp [hdata, List.filter_append, hm', List.filter_cons]

/-- The loop of `maskFilter` run over the indices below `k`, when a selected
index is past the end of the points: the read has no defined result. -/
theorem foldlM_maskFilterStep_none (inp : PointCloud P) (mask : List Bool)
    (out0 : PointCloud P) (k : Nat)
    (h : ∃ i, i < k ∧ mask.getD i false = true ∧ inp.points.data.length ≤ i) :
    (List.range k).foldlM (maskFilterStep inp mask) out0 = none := by
  induction k with
  | zero => obtain ⟨i, hi, _⟩ := h; exact absurd hi (Nat.not_lt_zero i)
  | succ k ih =>
    rw [List.range_succ, List.foldlM_append]
    by_cases hk : ∃ i, i < k ∧ mask.getD i false = true ∧ inp.points.data.length ≤ i
    · rw [ih hk]; rfl
    · have hgood : ∀ i, i < k → mask.getD i false = true → i < inp.points.data.length := by
        intro i hi hm
        by_contra hlt
        exact hk ⟨i, hi, hm, Nat.le_of_not_lt hlt⟩
      obtain ⟨out, hrun, -⟩ := foldlM_maskFilterStep_some inp mask out0 k hgood
      obtain ⟨i, hi, hm, hlen⟩ := h
      have hik : i = k := by
        rcases Nat.lt_succ_iff_lt_or_eq.mp hi with hlt | heq
        · exact absurd ⟨i, hlt, hm, hlen⟩ hk
        · exact heq
      subst hik
      rw [hrun, List.getD_eq_getElem?_getD] at *
      simp [maskFilterStep, hm, StdVector.index, List.getElem?_eq_none hlen]

/-- The result of `maskFilter` when no selected index is past the end of the points. -/
theorem maskFilter_of_inBounds (maskSum : List Bool → Nat) (inp : PointCloud P)
    (mask : List Bool)
    (h : ∀ i, i < mask.length → mask.getD i false = true → i < inp.points.data.length) :
    ∃ out, maskFilter maskSum inp mask = some out ∧
      out.points.data = selectedPoints inp.points.data mask ∧
      out.width = (selectedPoints inp.points.data mask).length ∧ out.height = 1 := by
  obtain ⟨out, hrun, hdata, -, -⟩ :=
    foldlM_maskFilterStep_some inp mask
      { (PointCloud.new : PointCloud P) with
        points := (PointCloud.new : PointCloud P).points.reserve (maskSum mask) }
      mask.length h
  refine ⟨setWidthToSize out, ?_, ?_, ?_, rfl⟩
  · simp [maskFilter, hrun]
  · simpa [setWidthToSize, selectedPoints, PointCloud.new, StdVector.reserve,
      StdVector.empty] using hdata
  · simp only [setWidthToSize, StdVector.size]
    rw [hdata]
    simp [selectedPoints, PointCloud.new, StdVector.reserve, StdVector.empty]

end MaskFilterLoop

/-! ## Lemmas on the loop of `boxMask` -/

section BoxMaskLoop

variable {P α : Type} [LinearOrder α] [PointT P α]

theorem foldl_boxMaskStep (mins maxes : Vector3 α) (l : List P) :
    ∀ (done rest : List Bool), l.length ≤ rest.length →
      l.foldl (boxMaskStep mins maxes) (done ++ rest, done.length) =
        (done ++ l.map (inBox mins maxes) ++ rest.drop l.length, done.length + l.length) := by
  induction l with
  | nil => intro done rest _; simp
  | cons p ps ih =>
    intro done rest hlen
    cases rest with
    | nil => simp at hlen
    | cons r rs =>
      have hlen' : ps.length ≤ rs.length := by simpa using hlen
      have hset : (done ++ r :: rs).set done.length (inBox mins maxes p) =
          (done ++ [inBox mins maxes p]) ++ rs := by
        simp [List.set_append]
      have hstep : boxMaskStep mins maxes (done ++ r :: rs, done.length) p =
          ((done ++ [inBox mins maxes p]) ++ rs, (done ++ [inBox mins maxes p]).length) := by
        simp only [boxMaskStep, hset, List.length_append, List.length_singleton]
      rw [List.foldl_cons, hstep, ih _ _ hlen']
      simp
      omega

/-- The mask computed by `boxMask` is the box test mapped over the points,
whatever the allocated vector held. -/
theorem boxMask_eq_map (junk : Nat → Bool) (inp : PointCloud P) (mins maxes : Vector3 α) :
    boxMask junk inp mins maxes = inp.points.data.map (inBox mins maxes) := by
  have h := foldl_boxMaskStep mins maxes inp.points.data []
    ((List.range inp.points.data.length).map junk) (by simp)
  simp only [List.nil_append, List.length_nil, Nat.zero_add] at h
  simp only [boxMask, PointCloud.size, StdVector.size, h]
  simp

/-- The box test in terms of the order. -/
theorem inBox_iff (mins maxes : Vector3 α) (pt : P) :
    inBox mins maxes pt = true ↔
      (mins.x ≤ PointT.x pt ∧ PointT.x pt ≤ maxes.x) ∧
      (mins.y ≤ PointT.y pt ∧ PointT.y pt ≤ maxes.y) ∧
      (mins.z ≤ PointT.z pt ∧ PointT.z pt ≤ maxes.z) := by
  simp [inBox, and_assoc]

end BoxMaskLoop

/-! ## Masking and filtering: the contract -/

section Masking

variable {P α : Type} [LinearOrder α] [PointT P α]

/-- Claim C1. For a mask as long as the cloud, `maskFilter` returns a cloud
whose points are exactly the input points at the indices where the mask is
true, taken in increasing index (equivalently: the first components of the
pairs point/mask entry whose entry is true); their number is the number of
true entries and they form a subsequence of the input points, so the relative
order is preserved.  This holds whatever value `mask.sum()` passes to `reserve`. -/
theorem maskFilter_selects_masked_points {P : Type} (maskSum : List Bool → Nat)
    (C : PointCloud P) (M : List Bool) (hlen : M.length = C.size) :
    ∃ out, maskFilter maskSum C M = some out ∧
      out.points.data = selectedPoints C.points.data M ∧
      out.points.data = ((C.points.data.zip M).filter Prod.snd).map Prod.fst ∧
      out.points.size = M.count true ∧
      List.Sublist out.points.data C.points.data := by
  have hlen' : M.length = C.points.data.length := hlen
  obtain ⟨out, hrun, hdata, -, -⟩ :=
    maskFilter_of_inBounds maskSum C M (fun i hi _ => hlen' ▸ hi)
  refine ⟨out, hrun, hdata, ?_, ?_, ?_⟩
  · rw [hdata, selectedPoints_eq_zip]
  · rw [StdVector.size, hdata, selectedPoints_length _ _ (Nat.le_of_eq hlen')]
  · rw [hdata]
    exact selectedPoints_sublist _ _

/-- Claim C1 at a cloud of four points and the mask `[true, false, false, true]`. -/
theorem maskFilter_selects_masked_points_witness :
    [true, false, false, true].length = organizedCloud.size ∧
    ∃ out, maskFilter (List.count true) organizedCloud [true, false, false, true] = some out ∧
      out.points.data = selectedPoints organizedCloud.points.data [true, false, false, true] ∧
      out.points.data =
        ((organizedCloud.points.data.zip [true, false, false, true]).filter Prod.snd).map
          Prod.fst ∧
      out.points.size = [true, false, false, true].count true ∧
      List.Sublist out.points.data organizedCloud.points.data :=
  ⟨rfl, maskFilter_selects_masked_points (List.count true) organizedCloud
    [true, false, false, true] rfl⟩

/-- Claim C2. `boxMask` returns a mask with one entry per point of the cloud,
and entry `i` is true exactly when point `i` lies between `mins` and `maxes`
on each of the three axes, both bounds included. -/
theorem boxMask_inclusive_bounds (junk : Nat → Bool) (C : PointCloud P)
    (mins maxes : Vector3 α) :
    (boxMask junk C mins maxes).length = C.size ∧
    ∀ (i : Nat) (hi : i < C.points.data.length),
      ((boxMask junk C mins maxes).getD i false = true ↔
        (mins.x ≤ PointT.x (C.points.data.get ⟨i, hi⟩) ∧
          PointT.x (C.points.data.get ⟨i, hi⟩) ≤ maxes.x) ∧
        (mins.y ≤ PointT.y (C.points.data.get ⟨i, hi⟩) ∧
          PointT.y (C.points.data.get ⟨i, hi⟩) ≤ maxes.y) ∧
        (mins.z ≤ PointT.z (C.points.data.get ⟨i, hi⟩) ∧
          PointT.z (C.points.data.get ⟨i, hi⟩) ≤ maxes.z)) := by
  rw [boxMask_eq_map]
  refine ⟨by simp [PointCloud.size, StdVector.size], ?_⟩
  intro i hi
  rw [← inBox_iff]
  simp [List.getD_eq_getElem?_getD, List.getElem?_map, List.getElem?_eq_getElem hi]

/-- Claim C2, the scenario: with `mins = (0,0,0)` and `maxes = (1,1,1)` the
points `(0.5,0.5,0.5)` and `(2,2,2)` get the mask `[true, false]` (of length
two, the number of points), and `maskFilter` then returns the single point
`(0.5,0.5,0.5)`. -/
theorem boxMask_unit_box_scenario :
    boxMask (fun _ => true) unitBoxCloud ⟨0, 0, 0⟩ ⟨1, 1, 1⟩ = [true, false] ∧
    (boxMask (fun _ => true) unitBoxCloud ⟨0, 0, 0⟩ ⟨1, 1, 1⟩).length = unitBoxCloud.size ∧
    maskFilter (List.count true) unitBoxCloud
        (boxMask (fun _ => true) unitBoxCloud ⟨0, 0, 0⟩ ⟨1, 1, 1⟩) =
      some ⟨⟨[⟨0.5, 0.5, 0.5⟩], 1⟩, 1, 1⟩ := by
  have hmask : boxMask (fun _ => true) unitBoxCloud ⟨0, 0, 0⟩ ⟨1, 1, 1⟩ = [true, false] := by
    rw [boxMask_eq_map]
    simp only [unitBoxCloud, List.map_cons, List.map_nil, inBox, PointT.x, PointT.y, PointT.z]
    norm_num
  refine ⟨hmask, (boxMask_inclusive_bounds (fun _ => true) unitBoxCloud ⟨0, 0, 0⟩ ⟨1, 1, 1⟩).1, ?_⟩
  rw [hmask]
  rfl

/-- Claim C3, refuted as stated: `maskFilter` has no length check.  With a mask
shorter than the cloud it returns the cloud selected from the first points,
and with a longer mask whose extra entries are false it returns a cloud too. -/
theorem maskFilter_length_mismatch_returns :
    [true].length ≠ organizedCloud.size ∧
    maskFilter (List.count true) organizedCloud [true] = some ⟨⟨[⟨0, 0, 0⟩], 1⟩, 1, 1⟩ ∧
    [false, true, false, true, false].length ≠ organizedCloud.size ∧
    maskFilter (List.count true) organizedCloud [false, true, false, true, false] =
      some ⟨⟨[⟨1, 0, 0⟩, ⟨1, 1, 0⟩], 2⟩, 2, 1⟩ := by
  refine ⟨by decide, by decide, by decide, by decide⟩

/-- Claim C3, amended.  `maskFilter` never checks the mask length.  Whenever
every true entry of the mask sits at an index below the number of points (so
for every mask that is not longer than the cloud) it returns the unorganized
cloud of the input points at the true indices, in order; when some true entry
sits at or past the number of points the loop reads past the end of the
points and no result is defined. -/
theorem maskFilter_length_unchecked {P : Type} (maskSum : List Bool → Nat)
    (C : PointCloud P) (M : List Bool) :
    ((∀ i, i < M.length → M.getD i false = true → i < C.size) →
      ∃ out, maskFilter maskSum C M = some out ∧
        out.points.data = selectedPoints C.points.data M ∧
        out.width = out.points.size ∧ out.height = 1) ∧
    (M.length ≤ C.size → (maskFilter maskSum C M).isSome = true) ∧
    ((∃ i, i < M.length ∧ M.getD i false = true ∧ C.size ≤ i) →
      maskFilter maskSum C M = none) := by
  have hgood : (∀ i, i < M.length → M.getD i false = true → i < C.size) →
      ∃ out, maskFilter maskSum C M = some out ∧
        out.points.data = selectedPoints C.points.data M ∧
        out.width = out.points.size ∧ out.height = 1 := by
    intro h
    obtain ⟨out, hrun, hdata, hw, hh⟩ := maskFilter_of_inBounds maskSum C M h
    exact ⟨out, hrun, hdata, by rw [hw, StdVector.size, hdata], hh⟩
  refine ⟨hgood, ?_, ?_⟩
  · intro hle
    obtain ⟨out, hrun, -⟩ := hgood (fun i hi _ => Nat.lt_of_lt_of_le hi hle)
    rw [hrun]
    rfl
  · intro hbad
    have := foldlM_maskFilterStep_none C M
      { (PointCloud.new : PointCloud P) with
        points := (PointCloud.new : PointCloud P).points.reserve (maskSum M) }
      M.length hbad
    simp [maskFilter, this]

/-- Claim C3, amended, at concrete masks on a cloud of four points: a mask of
one entry gives a cloud, a mask of five entries whose fifth is true gives no
defined result. -/
theorem maskFilter_length_unchecked_witness :
    (maskFilter (List.count true) organizedCloud [true]).isSome = true ∧
    maskFilter (List.count true) organizedCloud [false, false, false, false, true] = none :=
  ⟨(maskFilter_length_unchecked (List.count true) organizedCloud [true]).2.1 (by decide),
    (maskFilter_length_unchecked (List.count true) organizedCloud
      [false, false, false, false, true]).2.2 ⟨4, by decide, by decide, by decide⟩⟩

/-- Claim C4. For a mask as long as the cloud, the cloud returned by
`maskFilter` has height 1 and width equal to the number of selected points,
so `width * height` is its stored point count, whatever the width and height
of the input were. -/
theorem maskFilter_output_unorganized {P : Type} (maskSum : List Bool → Nat)
    (C : PointCloud P) (M : List Bool) (hlen : M.length = C.size) :
    ∃ out, maskFilter maskSum C M = some out ∧
      out.height = 1 ∧ out.width = M.count true ∧
      out.width = out.points.size ∧ cloudSize out = out.points.size := by
  have hlen' : M.length = C.points.data.length := hlen
  obtain ⟨out, hrun, hdata, hw, hh⟩ :=
    maskFilter_of_inBounds maskSum C M (fun i hi _ => hlen' ▸ hi)
  have hsz : out.width = out.points.size := by rw [hw, StdVector.size, hdata]
  refine ⟨out, hrun, hh, ?_, hsz, ?_⟩
  · rw [hw, selectedPoints_length _ _ (Nat.le_of_eq hlen')]
  · rw [cloudSize, hh, Nat.mul_one, hsz]

/-- Claim C4 at an organized input of two rows and two columns. -/
theorem maskFilter_output_unorganized_witness :
    organizedCloud.height = 2 ∧ [false, true, true, true].length = organizedCloud.size ∧
    ∃ out, maskFilter (List.count true) organizedCloud [false, true, true, true] = some out ∧
      out.height = 1 ∧ out.width = [false, true, true, true].count true ∧
      out.width = out.points.size ∧ cloudSize out = out.points.size :=
  ⟨rfl, rfl, maskFilter_output_unorganized (List.count true) organizedCloud
    [false, true, true, true] rfl⟩

/-- Claim C5. Filtering a cloud by its box mask and masking the result with
the same box gives a mask that is true at every index, and filtering again
returns the same point sequence (and the same width and height). -/
theorem boxMask_maskFilter_idempotent (junk junk2 : Nat → Bool)
    (maskSum : List Bool → Nat) (C : PointCloud P) (lo hi : Vector3 α) :
    ∃ F, maskFilter maskSum C (boxMask junk C lo hi) = some F ∧
      (boxMask junk2 F lo hi).length = F.size ∧
      (∀ i, i < F.size → (boxMask junk2 F lo hi).getD i false = true) ∧
      ∃ G, maskFilter maskSum F (boxMask junk2 F lo hi) = some G ∧
        G.points.data = F.points.data ∧ G.width = F.width ∧ G.height = F.height := by
  obtain ⟨F, hF, hFdata, hFw, hFh⟩ :=
    maskFilter_of_inBounds maskSum C (boxMask junk C lo hi)
      (fun i hi _ => by simpa [boxMask_eq_map] using hi)
  rw [boxMask_eq_map, selectedPoints_map] at hFdata
  have hall : ∀ p ∈ F.points.data, inBox lo hi p = true := by
    intro p hp
    rw [hFdata] at hp
    exact (List.mem_filter.mp hp).2
  have hmask : boxMask junk2 F lo hi = F.points.data.map (inBox lo hi) := boxMask_eq_map _ _ _ _
  obtain ⟨G, hG, hGdata, hGw, hGh⟩ :=
    maskFilter_of_inBounds maskSum F (boxMask junk2 F lo hi)
      (fun i hi _ => by simpa [hmask] using hi)
  have hsel : selectedPoints F.points.data (boxMask junk2 F lo hi) = F.points.data := by
    rw [hmask, selectedPoints_map]
    exact List.filter_eq_self.mpr hall
  refine ⟨F, hF, by simp [hmask, PointCloud.size, StdVector.size], ?_, G, hG, ?_, ?_, ?_⟩
  · intro i hi
    have hi' : i < F.points.data.length := hi
    rw [hmask, List.getD_eq_getElem?_getD, List.getElem?_map, List.getElem?_eq_getElem hi']
    simpa using hall _ (List.getElem_mem hi')
  · rw [hGdata, hsel]
  · rw [hGw, hsel, hFw, boxMask_eq_map, selectedPoints_map, hFdata]
  · rw [hGh, hFh]

/-- Claim C5 at the box scenario: the filtered cloud is the point
`(0.5,0.5,0.5)` alone, its box mask is `[true]`, and filtering it again gives
the same cloud. -/
theorem boxMask_maskFilter_idempotent_witness :
    maskFilter (List.count true) unitBoxCloud
        (boxMask (fun _ => true) unitBoxCloud ⟨0, 0, 0⟩ ⟨1, 1, 1⟩) = some insideCloud ∧
    boxMask (fun _ => false) insideCloud ⟨0, 0, 0⟩ ⟨1, 1, 1⟩ = [true] ∧
    maskFilter (List.count true) insideCloud
        (boxMask (fun _ => false) insideCloud ⟨0, 0, 0⟩ ⟨1, 1, 1⟩) = some insideCloud := by
  have h1 : boxMask (fun _ => true) unitBoxCloud ⟨0, 0, 0⟩ ⟨1, 1, 1⟩ = [true, false] := by
    rw [boxMask_eq_map]
    simp only [unitBoxCloud, List.map_cons, List.map_nil, inBox, PointT.x, PointT.y, PointT.z]
    norm_num
  have h2 : boxMask (fun _ => false) insideCloud ⟨0, 0, 0⟩ ⟨1, 1, 1⟩ = [true] := by
    rw [boxMask_eq_map]
    simp only [insideCloud, List.map_cons, List.map_nil, inBox, PointT.x, PointT.y, PointT.z]
    norm_num
  rw [h1, h2]
  exact ⟨rfl, rfl, rfl⟩

end Masking

/-! ## Downsampling, normals and meshing: what reaches the library -/

section Wrappers

variable {α Cloud : Type} [LinearOrderedField α]

/-- The radius that `mlsAddNormals` puts on the estimator does not depend on
its `searchRadius` argument. -/
theorem mlsAddNormalsSetup_searchRadius (mls : MovingLeastSquares α Cloud) (inp : Cloud)
    (searchRadius : α) :
    (mlsAddNormalsSetup mls inp searchRadius).searchRadius = 0.04 := rfl

/-- Claim C6, evaluated on the code: called with `searchRadius = 0.1`,
`mlsAddNormals` puts the radius `0.04` on the estimator, not `0.1`, and the
estimator it runs is the same as for `searchRadius = 0.2`. -/
theorem mlsAddNormals_ignores_searchRadius :
    (mlsAddNormalsSetup exampleMLS unitBoxCloud 0.1).searchRadius = 0.04 ∧
    (mlsAddNormalsSetup exampleMLS unitBoxCloud 0.1).searchRadius ≠ 0.1 ∧
    mlsAddNormalsSetup exampleMLS unitBoxCloud 0.1 =
      mlsAddNormalsSetup exampleMLS unitBoxCloud 0.2 ∧
    mlsAddNormals exampleMLS (fun mls => mls.searchRadius) unitBoxCloud 0.1 = 0.04 := by
  refine ⟨rfl, ?_, rfl, rfl⟩
  rw [mlsAddNormalsSetup_searchRadius]
  norm_num

/-- Claim C7, refuted as stated: with a voxel size of `0` and of `-1`,
`downsampleCloud` runs the voxel filter and returns the cloud the filter
produced. -/
theorem downsampleCloud_nonpositive_returns :
    downsampleCloud exampleVoxelGrid passThroughFilter unitBoxCloud 0 = Except.ok unitBoxCloud ∧
    downsampleCloud exampleVoxelGrid passThroughFilter unitBoxCloud (-1) =
      Except.ok unitBoxCloud := by
  exact ⟨rfl, rfl⟩

/-- Claim C7, amended.  `downsampleCloud` checks nothing: for every voxel
size, positive or not, it runs the voxel filter on the input cloud with the
leaf size `(vsize, vsize, vsize)`, and its outcome is the outcome of the filter. -/
theorem downsampleCloud_runs_filter {A P ε : Type} (sor : VoxelGrid A (PointCloud P))
    (filter : VoxelGrid A (PointCloud P) → Except ε (PointCloud P))
    (inp : PointCloud P) (vsize : A) :
    downsampleCloud sor filter inp vsize =
      filter { inputCloud := some inp, leafSize := ⟨vsize, vsize, vsize⟩ } := rfl

/-- Claim C8. `meshGP3` puts its three arguments on the triangulator
unchanged (search radius, mu, maximum nearest neighbours) and sets the
maximum surface angle to `pi/4` (45 degrees), the minimum angle to `pi/18`
(10 degrees) and the maximum angle to `2*pi/3` (120 degrees); the three angles
are the same for all arguments; and that triangulator is the one it runs. -/
theorem meshGP3_configuration (M_PI : α) (gp3 : GreedyProjectionTriangulation α Cloud)
    (cloud_with_normals : Cloud) (mu : α) (maxnn : Int) (searchRadius : α) :
    (meshGP3Setup M_PI gp3 cloud_with_normals mu maxnn searchRadius).searchRadius =
      searchRadius ∧
    (meshGP3Setup M_PI gp3 cloud_with_normals mu maxnn searchRadius).mu = mu ∧
    (meshGP3Setup M_PI gp3 cloud_with_normals mu maxnn searchRadius).maximumNearestNeighbors =
      maxnn ∧
    (meshGP3Setup M_PI gp3 cloud_with_normals mu maxnn searchRadius).maximumSurfaceAngle =
      M_PI / 4 ∧
    (meshGP3Setup M_PI gp3 cloud_with_normals mu maxnn searchRadius).minimumAngle =
      M_PI / 18 ∧
    (meshGP3Setup M_PI gp3 cloud_with_normals mu maxnn searchRadius).maximumAngle =
      2 * M_PI / 3 ∧
    (meshGP3Setup M_PI gp3 cloud_with_normals mu maxnn searchRadius).maximumSurfaceAngle =
      degrees M_PI 45 ∧
    (meshGP3Setup M_PI gp3 cloud_with_normals mu maxnn searchRadius).minimumAngle =
      degrees M_PI 10 ∧
    (meshGP3Setup M_PI gp3 cloud_with_normals mu maxnn searchRadius).maximumAngle =
      degrees M_PI 120 ∧
    (∀ (gp3' : GreedyProjectionTriangulation α Cloud) (cloud' : Cloud) (mu' : α)
        (maxnn' : Int) (searchRadius' : α),
      (meshGP3Setup M_PI gp3' cloud' mu' maxnn' searchRadius').maximumSurfaceAngle =
          (meshGP3Setup M_PI gp3 cloud_with_normals mu maxnn searchRadius).maximumSurfaceAngle ∧
      (meshGP3Setup M_PI gp3' cloud' mu' maxnn' searchRadius').minimumAngle =
          (meshGP3Setup M_PI gp3 cloud_with_normals mu maxnn searchRadius).minimumAngle ∧
      (meshGP3Setup M_PI gp3' cloud' mu' maxnn' searchRadius').maximumAngle =
          (meshGP3Setup M_PI gp3 cloud_with_normals mu maxnn searchRadius).maximumAngle) ∧
    (∀ (Mesh : Type) (reconstruct : GreedyProjectionTriangulation α Cloud → Mesh),
      meshGP3 M_PI gp3 reconstruct cloud_with_normals mu maxnn searchRadius =
        reconstruct (meshGP3Setup M_PI gp3 cloud_with_normals mu maxnn searchRadius)) := by
  refine ⟨rfl, rfl, rfl, rfl, rfl, rfl, ?_, ?_, ?_, fun _ _ _ _ _ => ⟨rfl, rfl, rfl⟩,
    fun _ _ => rfl⟩
  · show M_PI / 4 = degrees M_PI 45
    unfold degrees
    ring
  · show M_PI / 18 = degrees M_PI 10
    unfold degrees
    ring
  · show 2 * M_PI / 3 = degrees M_PI 120
    unfold degrees
    ring

/-- Claim C8 at `mu = 2.5`, `maxnn = 100`, `searchRadius = 0.025`, with
`355/113` standing for the constant `M_PI`. -/
theorem meshGP3_configuration_witness :
    (meshGP3Setup (355 / 113) exampleGP3 PointCloud.new 2.5 100 0.025).searchRadius = 0.025 ∧
    (meshGP3Setup (355 / 113) exampleGP3 PointCloud.new 2.5 100 0.025).mu = 2.5 ∧
    (meshGP3Setup (355 / 113) exampleGP3 PointCloud.new 2.5 100 0.025).maximumNearestNeighbors =
      100 ∧
    (meshGP3Setup (355 / 113) exampleGP3 PointCloud.new 2.5 100 0.025).maximumSurfaceAngle =
      355 / 113 / 4 :=
  ⟨(meshGP3_configuration (355 / 113) exampleGP3 PointCloud.new 2.5 100 0.025).1,
    (meshGP3_configuration (355 / 113) exampleGP3 PointCloud.new 2.5 100 0.025).2.1,
    (meshGP3_configuration (355 / 113) exampleGP3 PointCloud.new 2.5 100 0.025).2.2.1,
    (meshGP3_configuration (355 / 113) exampleGP3 PointCloud.new 2.5 100 0.025).2.2.2.1⟩

end Wrappers

/-! ## Reading and writing files: the dispatch -/

section Files

variable {Blob Cloud Mesh ε : Type}

/-- Claim C9, refuted as stated: for the path `scan.txt`, whose extension
`.txt` is no point-cloud extension, `readPCD` calls the PCD reader; when the
reader succeeds it returns the cloud, and when the reader fails the error is
the could-not-open error. -/
theorem readPCD_reads_any_extension :
    fsExtension "scan.txt" = ".txt" ∧
    (readPCD loadAlways id "scan.txt" :
        List (CodecCall (PointCloud (PointXYZ ℚ)) Unit) × Except RuntimeError _) =
      ([CodecCall.loadPCDFile "scan.txt"], Except.ok unitBoxCloud) ∧
    (readPCD loadNever id "scan.txt" :
        List (CodecCall (PointCloud (PointXYZ ℚ)) Unit) × Except RuntimeError _) =
      ([CodecCall.loadPCDFile "scan.txt"], Except.error ⟨"couldn't open scan.txt"⟩) := by
  refine ⟨by decide, rfl, rfl⟩

/-- Claim C9, amended.  `readPCD` does not look at the extension of the path.
For every path it calls the PCD reader on it, once, and nothing else; it fails
with the could-not-open error exactly when the reader returns a nonzero code,
and otherwise returns the converted cloud. -/
theorem readPCD_outcome (loadPCDFile : String → Int × Blob) (fromROSMsg : Blob → Cloud)
    (pcdfile : String) :
    (readPCD loadPCDFile fromROSMsg pcdfile : List (CodecCall Cloud Mesh) × _).1 =
      [CodecCall.loadPCDFile pcdfile] ∧
    ((readPCD loadPCDFile fromROSMsg pcdfile : List (CodecCall Cloud Mesh) × _).2 =
        Except.error ⟨"couldn't open " ++ pcdfile⟩ ↔ (loadPCDFile pcdfile).1 ≠ 0) ∧
    ((readPCD loadPCDFile fromROSMsg pcdfile : List (CodecCall Cloud Mesh) × _).2 =
        Except.ok (fromROSMsg (loadPCDFile pcdfile).2) ↔ (loadPCDFile pcdfile).1 = 0) := by
  by_cases h : (loadPCDFile pcdfile).1 = 0 <;> simp [readPCD, h, FILE_OPEN_ERROR]

/-- Claim C10. `saveMesh` and `saveCloud` choose by the extension of the path
alone.  `saveMesh` calls exactly one writer for `.ply`, `.obj` and `.vtk`
(the PLY, OBJ and VTK mesh writer respectively) and `saveCloud` exactly one
for `.pcd` and `.ply` (the binary PCD writer, the PLY writer); for every other
extension each fails with its unrecognized-extension error and calls no writer. -/
theorem save_dispatches_on_extension (extension : String → String)
    (PRINT_AND_THROW : String → ε) (cloud : Cloud) (mesh : Mesh) (fname : String) :
    (extension fname = ".ply" →
      saveMesh extension PRINT_AND_THROW mesh fname =
        (([CodecCall.savePLYFileMesh fname mesh] : List (CodecCall Cloud Mesh)),
          Except.ok ())) ∧
    (extension fname = ".obj" →
      saveMesh extension PRINT_AND_THROW mesh fname =
        (([CodecCall.saveOBJFile fname mesh] : List (CodecCall Cloud Mesh)), Except.ok ())) ∧
    (extension fname = ".vtk" →
      saveMesh extension PRINT_AND_THROW mesh fname =
        (([CodecCall.saveVTKFile fname mesh] : List (CodecCall Cloud Mesh)), Except.ok ())) ∧
    (extension fname ∉ [".ply", ".obj", ".vtk"] →
      saveMesh extension PRINT_AND_THROW mesh fname =
        (([] : List (CodecCall Cloud Mesh)),
          Except.error
            (PRINT_AND_THROW ("filename " ++ fname ++ " had unrecognized extension")))) ∧
    (extension fname = ".pcd" →
      saveCloud extension cloud fname =
        (([CodecCall.savePCDFileBinary fname cloud] : List (CodecCall Cloud Mesh)),
          Except.ok ())) ∧
    (extension fname = ".ply" →
      saveCloud extension cloud fname =
        (([CodecCall.savePLYFile fname cloud true] : List (CodecCall Cloud Mesh)),
          Except.ok ())) ∧
    (extension fname ∉ [".pcd", ".ply"] →
      saveCloud extension cloud fname =
        (([] : List (CodecCall Cloud Mesh)),
          Except.error ⟨fname ++ " has unrecognized extension"⟩)) := by
  refine ⟨?_, ?_, ?_, ?_, ?_, ?_, ?_⟩
  · intro h; simp [saveMesh, h]
  · intro h; simp [saveMesh, h]
  · intro h; simp [saveMesh, h]
  · intro h
    simp only [List.mem_cons, List.mem_singleton, List.not_mem_nil, or_false, not_or] at h
    simp [saveMesh, h.1, h.2.1, h.2.2]
  · intro h; simp [saveCloud, h]
  · intro h; simp [saveCloud, h]
  · intro h
    simp only [List.mem_cons, List.mem_singleton, List.not_mem_nil, or_false, not_or] at h
    simp [saveCloud, h.1, h.2]

/-- Claim C10 at concrete paths: `mesh.obj` reaches the OBJ writer alone and
`cloud.pcd` the binary PCD writer alone; `mesh.PLY` (other letter case),
`mesh` (no extension) and `cloud.vtk` are refused without any writer call. -/
theorem save_dispatches_on_extension_witness :
    (saveMesh fsExtension RuntimeError.mk 7 "mesh.obj" :
        List (CodecCall Nat Nat) × Except RuntimeError Unit) =
      ([CodecCall.saveOBJFile "mesh.obj" 7], Except.ok ()) ∧
    (saveMesh fsExtension RuntimeError.mk 7 "mesh.PLY" :
        List (CodecCall Nat Nat) × Except RuntimeError Unit) =
      ([], Except.error ⟨"filename mesh.PLY had unrecognized extension"⟩) ∧
    (saveMesh fsExtension RuntimeError.mk 7 "mesh" :
        List (CodecCall Nat Nat) × Except RuntimeError Unit) =
      ([], Except.error ⟨"filename mesh had unrecognized extension"⟩) ∧
    (saveCloud fsExtension 5 "cloud.pcd" :
        List (CodecCall Nat Nat) × Except RuntimeError Unit) =
      ([CodecCall.savePCDFileBinary "cloud.pcd" 5], Except.ok ()) ∧
    (saveCloud fsExtension 5 "cloud.vtk" :
        List (CodecCall Nat Nat) × Except RuntimeError Unit) =
      ([], Except.error ⟨"cloud.vtk has unrecognized extension"⟩) :=
  ⟨(save_dispatches_on_extension fsExtension RuntimeError.mk 5 7 "mesh.obj").2.1 (by decide),
    (save_dispatches_on_extension fsExtension RuntimeError.mk 5 7 "mesh.PLY").2.2.2.1
      (by decide),
    (save_dispatches_on_extension fsExtension RuntimeError.mk 5 7 "mesh").2.2.2.1 (by decide),
    (save_dispatches_on_extension fsExtension RuntimeError.mk 5 7 "cloud.pcd").2.2.2.2.1
      (by decide),
    (save_dispatches_on_extension fsExtension RuntimeError.mk 5 7 "cloud.vtk").2.2.2.2.2.2
      (by decide)⟩

end Files

end cloudproc
